import Mathlib

/-!
Shallow embedding of the weather-pal plugin (src/main.rs).

The plugin state, its event-driven `update` function, the two response
parsers and the request-construction helpers are translated directly from
the Rust source.  Machine floats (f64) are modelled as exact rationals: the
properties verified here only move numbers from a decoded payload into the
state, never compute with them.  The byte-level stages performed by external
libraries (the `json` crate's text parser) are modelled at their output
boundary: an HTTP body is carried as `Except String Json`, the result of the
library UTF-8 + JSON-syntax stage; everything the repository itself does
with the decoded value is embedded faithfully.  UTF-8 decoding of command
output, which the repository performs itself via `String::from_utf8`, is
embedded as an executable strict UTF-8 decoder.  Outbound side effects
(`run_command`, `web_request`) are made explicit: `update` returns the new
state together with the list of requests issued during the event.
-/

/-- JSON values as produced by the `json` crate, numbers kept exact. -/
inductive Json where
  | null
  | bool (b : Bool)
  | num (q : ℚ)
  | str (s : String)
  | arr (xs : List Json)
  | obj (kvs : List (String × Json))

/-- Member access `value[key]`: the `json` crate returns `Null` for a
missing member or a non-object receiver. -/
def Json.getKey : Json → String → Json
  | .obj kvs, k => ((kvs.lookup k).getD .null)
  | _, _ => .null

/-- Index access `value[i]`: `Null` when out of range or not an array. -/
def Json.getIdx : Json → Nat → Json
  | .arr xs, i => xs.getD i .null
  | _, _ => .null

/-- `JsonValue::as_f64`: succeeds exactly on numbers. -/
def Json.asF64 : Json → Option ℚ
  | .num q => some q
  | _ => none

/-- `JsonValue::as_usize`: succeeds exactly on non-negative integers. -/
def Json.asUsize : Json → Option Nat
  | .num q => if q.den = 1 ∧ 0 ≤ q.num then some q.num.toNat else none
  | _ => none

/-- `JsonValue::as_str`: succeeds exactly on strings. -/
def Json.asStr : Json → Option String
  | .str s => some s
  | _ => none

/-- One hourly forecast sample (struct `HourlyData`). -/
structure HourlyData where
  temperature_2m : ℚ
  precipitation_probability : Nat
  wind_speed_10m : ℚ
  wind_direction_10m : Nat
  wmo_code : Nat
deriving DecidableEq

/-- The plugin's mutable state (struct `State`).  `weather_data` models the
`BTreeMap<usize, HourlyData>` as an association list sorted by key. -/
structure State where
  weather_data : List (Nat × HourlyData)
  requested_timezone : Option String
  weather_location : Option String
  geolocation : Option (ℚ × ℚ)
  error : Option String
  fetching_data : Bool
  location_being_typed : Option String
deriving DecidableEq

/-- `State::default()`: every field empty / false. -/
def initialState : State :=
  { weather_data := []
    requested_timezone := none
    weather_location := none
    geolocation := none
    error := none
    fetching_data := false
    location_being_typed := none }

/-- An outbound side effect issued by the plugin: `run_command` or
`web_request`, each carrying its correlation context. -/
inductive Request where
  | runCommand (argv : List String) (context : List (String × String))
  | webRequest (url : String) (context : List (String × String))
deriving DecidableEq

/-- Key events the plugin distinguishes; every other key is `otherKey`. -/
inductive Key where
  | char (c : Char)
  | ctrl (c : Char)
  | backspace
  | otherKey
deriving DecidableEq

/-- Events delivered to `State::update`.  HTTP headers are dropped (the
source ignores them); the body is the result of the library UTF-8 + JSON
stage. -/
inductive Event where
  | permissionRequestResult
  | runCommandResult (exitCode : Option Int) (stdout stderr : List Nat)
      (context : List (String × String))
  | webRequestResult (status : Nat) (body : Except String Json)
      (context : List (String × String))
  | key (k : Key)
  | otherEvent

/-- Result of one `update` call: the new state, the requests issued as side
effects while handling the event, and the returned `should_render` flag. -/
structure UpdateResult where
  state : State
  requests : List Request
  shouldRender : Bool
deriving DecidableEq

/-- Strict UTF-8 decoding of a byte list, as `String::from_utf8`: rejects
continuation errors, overlong forms, surrogates and code points above
U+10FFFF. -/
def utf8DecodeAux : List Nat → Option (List Char)
  | [] => some []
  | b :: rest =>
    if b < 0x80 then
      (utf8DecodeAux rest).map fun cs => Char.ofNat b :: cs
    else if b < 0xC2 then none
    else if b < 0xE0 then
      match rest with
      | b1 :: rest1 =>
        if 0x80 ≤ b1 ∧ b1 < 0xC0 then
          (utf8DecodeAux rest1).map fun cs =>
            Char.ofNat ((b - 0xC0) * 0x40 + (b1 - 0x80)) :: cs
        else none
      | [] => none
    else if b < 0xF0 then
      match rest with
      | b1 :: b2 :: rest2 =>
        if (if b = 0xE0 then 0xA0 ≤ b1 ∧ b1 < 0xC0
            else if b = 0xED then 0x80 ≤ b1 ∧ b1 < 0xA0
            else 0x80 ≤ b1 ∧ b1 < 0xC0) ∧ (0x80 ≤ b2 ∧ b2 < 0xC0) then
          (utf8DecodeAux rest2).map fun cs =>
            Char.ofNat ((b - 0xE0) * 0x1000 + (b1 - 0x80) * 0x40 + (b2 - 0x80)) :: cs
        else none
      | _ => none
    else if b < 0xF5 then
      match rest with
      | b1 :: b2 :: b3 :: rest3 =>
        if (if b = 0xF0 then 0x90 ≤ b1 ∧ b1 < 0xC0
            else if b = 0xF4 then 0x80 ≤ b1 ∧ b1 < 0x90
            else 0x80 ≤ b1 ∧ b1 < 0xC0) ∧ (0x80 ≤ b2 ∧ b2 < 0xC0)
            ∧ (0x80 ≤ b3 ∧ b3 < 0xC0) then
          (utf8DecodeAux rest3).map fun cs =>
            Char.ofNat ((b - 0xF0) * 0x40000 + (b1 - 0x80) * 0x1000
              + (b2 - 0x80) * 0x40 + (b3 - 0x80)) :: cs
        else none
      | _ => none
    else none

/-- `String::from_utf8(bytes).ok()`. -/
def utf8Decode (bs : List Nat) : Option String :=
  (utf8DecodeAux bs).map String.mk

/-- `option.ok_or_else(|| msg)`. -/
def okOr (o : Option α) (msg : String) : Except String α :=
  match o with
  | some a => Except.ok a
  | none => Except.error msg

/-- `BTreeMap::insert` on the sorted association-list model (keys unique,
ascending). -/
def btreeInsert (k : Nat) (v : HourlyData) :
    List (Nat × HourlyData) → List (Nat × HourlyData)
  | [] => [(k, v)]
  | (k0, v0) :: rest =>
    if k < k0 then (k, v) :: (k0, v0) :: rest
    else if k = k0 then (k, v) :: rest
    else (k0, v0) :: btreeInsert k v rest

/-- `body["hourly"][name][i]`, the field access pattern of
`parse_weather_data`. -/
def hourlyField (j : Json) (name : String) (i : Nat) : Json :=
  ((j.getKey "hourly").getKey name).getIdx i

/-- One iteration of the `parse_weather_data` loop body at index `i`. -/
def parseHourlyAt (j : Json) (i : Nat) : Except String HourlyData := do
  let temperature_2m ←
    okOr (hourlyField j "temperature_2m" i).asF64 "Failed to parse temperature"
  let precipitation_probability ←
    okOr (hourlyField j "precipitation_probability" i).asUsize
      "Failed to parse precipitation_probability"
  let wind_speed_10m ←
    okOr (hourlyField j "wind_speed_10m" i).asF64 "Failed to parse wind speed"
  let wind_direction_10m ←
    okOr (hourlyField j "wind_direction_10m" i).asUsize
      "Failed to parse wind direction"
  let wmo_code ←
    okOr (hourlyField j "weather_code" i).asUsize "Failed to parse weather code"
  Except.ok
    { temperature_2m := temperature_2m
      precipitation_probability := precipitation_probability
      wind_speed_10m := wind_speed_10m
      wind_direction_10m := wind_direction_10m
      wmo_code := wmo_code }

/-- The `for i in 0..167` loop of `parse_weather_data`, running `fuel` more
iterations starting at index `i` with accumulated map `acc`. -/
def parseWeatherGo (j : Json) : Nat → Nat → List (Nat × HourlyData) →
    Except String (List (Nat × HourlyData))
  | _, 0, acc => Except.ok acc
  | i, fuel + 1, acc => do
    let h ← parseHourlyAt j i
    parseWeatherGo j (i + 1) fuel (btreeInsert i h acc)

/-- `parse_weather_data`: the argument is the outcome of the library UTF-8 +
JSON stage on the body bytes; the repository's own per-field decoding loop
follows. -/
def parse_weather_data (body : Except String Json) :
    Except String (List (Nat × HourlyData)) :=
  body.bind fun j => parseWeatherGo j 0 167 []

/-- `body["results"][0][name]`, the field access pattern of
`parse_lat_lon_and_location`. -/
def resultsField (j : Json) (name : String) : Json :=
  ((j.getKey "results").getIdx 0).getKey name

/-- `parse_lat_lon_and_location`, same body-boundary convention as
`parse_weather_data`. -/
def parse_lat_lon_and_location (body : Except String Json) :
    Except String (ℚ × ℚ × String) :=
  body.bind fun j => do
    let latitude ← okOr (resultsField j "latitude").asF64 "Failed to parse latitude"
    let longitude ← okOr (resultsField j "longitude").asF64 "Failed to parse longitude"
    let city ← okOr (resultsField j "name").asStr "Failed to parse city"
    let country ← okOr (resultsField j "country").asStr "Failed to parse country"
    Except.ok (latitude, longitude, city ++ ", " ++ country)

/-- The correlation tag of the timezone-discovery command. -/
def TIMEZONE_COMMAND_ID : String := "TIMEZONE_COMMAND_ID"

/-- The shell command run to discover the local timezone. -/
def timezoneShellCommand : String :=
  "timedatectl | grep \"Time zone\" | awk \x27\x7bprint $3\x7d\x27"

/-- `str::split(pattern).last()` for a char pattern: the suffix after the
final occurrence, `Some` on every input (splitting yields at least one
segment). -/
def splitSlashLast (t : String) : Option String :=
  some (String.mk ((t.data.reverse.takeWhile fun c => c ≠ '/').reverse))

/-- `str::replace(a, b)` for a single-char pattern and single-char
replacement. -/
def replaceChar (s : String) (a b : Char) : String :=
  String.mk (s.data.map fun c => if c = a then b else c)

/-- `make_weather_web_request`. -/
def make_weather_web_request (latitude longitude : ℚ) : List Request :=
  [Request.webRequest
    ("https://api.open-meteo.com/v1/forecast?latitude=" ++ toString latitude
      ++ "&longitude=" ++ toString longitude
      ++ "&hourly=temperature_2m,precipitation_probability,wind_speed_10m,wind_direction_10m,weather_code")
    [("id", "weather")]]

/-- `make_geocode_request`: derives the query city from the optional hint
and issues the geocode request when the hint is present. -/
def make_geocode_request (timezone : Option String) : List Request :=
  match (timezone.bind splitSlashLast).map
      (fun c => replaceChar (replaceChar c ' ' '+') '-' '+') with
  | some city =>
    [Request.webRequest
      ("https://geocoding-api.open-meteo.com/v1/search?name=" ++ city
        ++ "&count=1&language=en&format=json")
      [("id", "geocode")]]
  | none => []

/-- `State::discover_local_timezone_or_make_geocode_request`. -/
def discover_local_timezone_or_make_geocode_request (s : State) : List Request :=
  if s.requested_timezone.isSome then
    make_geocode_request s.requested_timezone
  else
    [Request.runCommand ["bash", "-c", timezoneShellCommand]
      [("id", "TIMEZONE_COMMAND_ID")]]

/-- `State::update`, with issued side-effect requests made explicit. -/
def update (s : State) (e : Event) : UpdateResult :=
  match e with
  | Event.permissionRequestResult =>
    ⟨s, discover_local_timezone_or_make_geocode_request s, false⟩
  | Event.runCommandResult exitCode stdout stderr ctx =>
    let s1 :=
      if stderr ≠ [] then
        { s with
          error := some ("Error fetching timezone: " ++ (utf8Decode stderr).getD "") }
      else s
    let s2 :=
      if ctx.lookup "id" = some TIMEZONE_COMMAND_ID ∧ exitCode = some 0 then
        { s1 with requested_timezone := (utf8Decode stdout).map fun x => x.trim }
      else s1
    ⟨s2, make_geocode_request s2.requested_timezone, false⟩
  | Event.webRequestResult status body ctx =>
    if ctx.lookup "id" = some "weather" then
      if status ≠ 200 then
        ⟨{ s with error := some "Failed weather web request" }, [], true⟩
      else
        match parse_weather_data body with
        | Except.ok wd =>
          ⟨{ s with weather_data := wd, fetching_data := false }, [], true⟩
        | Except.error e =>
          ⟨{ s with error := some ("Failed to parse data: " ++ e) }, [], true⟩
    else if ctx.lookup "id" = some "geocode" then
      if status ≠ 200 then
        ⟨{ s with error := some "Failed geocode web request" }, [], true⟩
      else
        match parse_lat_lon_and_location body with
        | Except.ok (latitude, longitude, location) =>
          ⟨{ s with
              geolocation := some (latitude, longitude)
              weather_location := some location },
            make_weather_web_request latitude longitude, true⟩
        | Except.error e =>
          ⟨{ s with error := some ("Failed to parse geocode: " ++ e) }, [], true⟩
    else ⟨s, [], false⟩
  | Event.key k =>
    match k with
    | Key.char ch =>
      if ch = '\n' then
        if s.error.isSome then
          ⟨{ s with error := none, fetching_data := false }, [], true⟩
        else
          let s1 :=
            match s.location_being_typed with
            | some location =>
              { s with
                location_being_typed := none
                requested_timezone := some location }
            | none => s
          let s2 := { s1 with fetching_data := true }
          ⟨s2, discover_local_timezone_or_make_geocode_request s2, true⟩
      else
        ⟨{ s with
            location_being_typed := s.location_being_typed.map fun l => l.push ch },
          [], true⟩
    | Key.ctrl ch =>
      if ch = 'w' then
        ⟨{ s with error := none, location_being_typed := some "" }, [], true⟩
      else ⟨s, [], false⟩
    | Key.backspace =>
      ⟨{ s with
          location_being_typed := s.location_being_typed.map fun l => l.dropRight 1 },
        [], true⟩
    | Key.otherKey => ⟨s, [], false⟩
  | Event.otherEvent => ⟨s, [], false⟩

/-- Run a sequence of events through `update`, keeping only the state. -/
def runEvents (s : State) (es : List Event) : State :=
  es.foldl (fun s e => (update s e).state) s

/-- Spec-side description of the geocode query name: the substring after the
last `/` when the hint contains one, otherwise the whole hint, with every
space and hyphen replaced by `+`.  Stated independently of
`make_geocode_request` to compare against it. -/
def specGeocodeQueryName (hint : String) : String :=
  let base :=
    if '/' ∈ hint.data then
      String.mk ((hint.data.reverse.takeWhile fun c => c ≠ '/').reverse)
    else hint
  String.mk (base.data.map fun c => if c = ' ' ∨ c = '-' then '+' else c)

/-- Events that fail a fetch attempt: a weather or geocode HTTP completion
with non-success status or a failed body decode, or a command completion
with a non-empty error stream. -/
def fetchFailEvent : Event → Prop
  | Event.webRequestResult status body ctx =>
    (ctx.lookup "id" = some "weather" ∧
      (status ≠ 200 ∨ ∃ e, parse_weather_data body = Except.error e)) ∨
    (ctx.lookup "id" = some "geocode" ∧
      (status ≠ 200 ∨ ∃ e, parse_lat_lon_and_location body = Except.error e))
  | Event.runCommandResult _ _ stderr _ => stderr ≠ []
  | _ => False

/-- A required hourly field is missing or mistyped at index `i`. -/
def weatherFieldFails (j : Json) (i : Nat) : Prop :=
  (hourlyField j "temperature_2m" i).asF64 = none ∨
  (hourlyField j "precipitation_probability" i).asUsize = none ∨
  (hourlyField j "wind_speed_10m" i).asF64 = none ∨
  (hourlyField j "wind_direction_10m" i).asUsize = none ∨
  (hourlyField j "weather_code" i).asUsize = none

/-- A required geocode field is missing or mistyped on the first results
entry. -/
def geoFieldFails (j : Json) : Prop :=
  (resultsField j "latitude").asF64 = none ∨
  (resultsField j "longitude").asF64 = none ∨
  (resultsField j "name").asStr = none ∨
  (resultsField j "country").asStr = none

/-- Concrete fixture: a state that is mid-fetch. -/
def c1State : State := { initialState with fetching_data := true }

/-- Concrete fixture: a weather HTTP completion with status 503. -/
def c1Event : Event :=
  Event.webRequestResult 503 (Except.ok Json.null) [("id", "weather")]

/-- Concrete fixture: an error state with a known location hint and no
draft input. -/
def c2State : State :=
  { initialState with
    error := some "boom"
    requested_timezone := some "Europe/Berlin"
    fetching_data := true }

/-- Concrete fixture: a valid hourly array of 167 ascending numbers. -/
def natArr167 : Json :=
  Json.arr ((List.range 167).map fun i : Nat => Json.num (i : ℚ))

/-- Concrete fixture: a weather payload with all five arrays present and
well-typed at indices 0..166. -/
def jW : Json :=
  Json.obj [("hourly", Json.obj
    [("temperature_2m", natArr167),
     ("precipitation_probability", natArr167),
     ("wind_speed_10m", natArr167),
     ("wind_direction_10m", natArr167),
     ("weather_code", natArr167)])]

/-- Concrete fixture: an arbitrary hourly record. -/
def hd0 : HourlyData := ⟨21, 40, 7, 180, 3⟩

/-- Concrete fixture: a state holding a non-empty forecast. -/
def s8 : State := { initialState with weather_data := [(0, hd0)] }

/-- Concrete fixture: a geocode HTTP completion with status 503. -/
def e8 : Event :=
  Event.webRequestResult 503 (Except.ok Json.null) [("id", "geocode")]

/-- Concrete fixture: a well-typed geocode payload for Berlin. -/
def jG : Json :=
  Json.obj [("results", Json.arr
    [Json.obj
      [("latitude", Json.num 52),
       ("longitude", Json.num 13),
       ("name", Json.str "Berlin"),
       ("country", Json.str "Germany")]])]

/-- Concrete fixture: an event sequence that starts a fetch, enters typing
mode, then receives a failing command completion. -/
def c6Events : List Event :=
  [Event.key (Key.char '\n'),
   Event.key (Key.ctrl 'w'),
   Event.runCommandResult (some 0) [] [65] [("id", "TIMEZONE_COMMAND_ID")]]

/-- Concrete fixture: a command completion carrying an unknown correlation
tag and a non-empty error stream. -/
def c7Event : Event :=
  Event.runCommandResult (some 0) [] [66] [("id", "bogus")]

/-- Inserting a key larger than every key of a sorted association list
appends at the end. -/
theorem btreeInsert_append (k : Nat) (v : HourlyData) :
    ∀ l : List (Nat × HourlyData), (∀ p ∈ l, p.1 < k) →
      btreeInsert k v l = l ++ [(k, v)] := by
  intro l
  induction l with
  | nil => intro _; rfl
  | cons hd tl ih =>
    intro h
    have hk0 : hd.1 < k := h hd (List.mem_cons_self _ _)
    simp only [btreeInsert]
    rw [if_neg (by omega), if_neg (by omega)]
    rw [ih fun p hp => h p (List.mem_cons_of_mem _ hp)]
    simp

/-- Shifting the starting index out of a mapped range of entry pairs. -/
theorem range_map_shift (rec : Nat → HourlyData) (i fuel : Nat) :
    (i, rec i) :: (List.range fuel).map (fun t => (i + 1 + t, rec (i + 1 + t))) =
      (List.range (fuel + 1)).map fun t => (i + t, rec (i + t)) := by
  rw [List.range_succ_eq_map, List.map_cons, List.map_map]
  refine List.cons_eq_cons.mpr ⟨by simp, ?_⟩
  refine List.map_congr_left fun u _ => ?_
  show (i + 1 + u, rec (i + 1 + u)) = (i + Nat.succ u, rec (i + Nat.succ u))
  have hx : i + 1 + u = i + Nat.succ u := by omega
  rw [hx]

/-- The weather loop succeeds and produces the expected entries when every
remaining index decodes. -/
theorem parseWeatherGo_ok_of (j : Json) (rec : Nat → HourlyData) :
    ∀ (fuel i : Nat) (acc : List (Nat × HourlyData)),
      (∀ t, t < fuel → parseHourlyAt j (i + t) = Except.ok (rec (i + t))) →
      (∀ p ∈ acc, p.1 < i) →
      parseWeatherGo j i fuel acc =
        Except.ok (acc ++ (List.range fuel).map fun t => (i + t, rec (i + t))) := by
  intro fuel
  induction fuel with
  | zero => intro i acc _ _; simp [parseWeatherGo]
  | succ fuel ih =>
    intro i acc h hacc
    have h0 : parseHourlyAt j i = Except.ok (rec i) := by
      simpa using h 0 (Nat.succ_pos _)
    simp only [parseWeatherGo, h0]
    show parseWeatherGo j (i + 1) fuel (btreeInsert i (rec i) acc) = _
    rw [btreeInsert_append _ _ _ hacc]
    rw [ih (i + 1) (acc ++ [(i, rec i)])
      (fun u hu => by
        have hx := h (u + 1) (by omega)
        rwa [show i + (u + 1) = i + 1 + u by omega] at hx)
      (fun p hp => by
        rcases List.mem_append.mp hp with hp1 | hp2
        · exact Nat.lt_succ_of_lt (hacc p hp1)
        · rw [List.mem_singleton] at hp2
          subst hp2
          exact Nat.lt_succ_self i)]
    rw [List.append_assoc, List.singleton_append, range_map_shift]

/-- If the weather loop returns a map, every remaining index decoded. -/
theorem parseWeatherGo_ok_fields (j : Json) :
    ∀ (fuel i : Nat) (acc m), parseWeatherGo j i fuel acc = Except.ok m →
      ∀ t, t < fuel → ∃ h, parseHourlyAt j (i + t) = Except.ok h := by
  intro fuel
  induction fuel with
  | zero => intro i acc m _ t ht; omega
  | succ fuel ih =>
    intro i acc m hko t ht
    simp only [parseWeatherGo] at hko
    cases hph : parseHourlyAt j i with
    | error e => rw [hph] at hko; exact absurd hko (by simp [Bind.bind, Except.bind])
    | ok hd =>
      rw [hph] at hko
      replace hko : parseWeatherGo j (i + 1) fuel (btreeInsert i hd acc) = Except.ok m := hko
      cases t with
      | zero => exact ⟨hd, by simpa using hph⟩
      | succ u =>
        have := ih (i + 1) (btreeInsert i hd acc) m hko u (by omega)
        rwa [show i + 1 + u = i + (u + 1) by omega] at this

/-- A successful per-index decode means all five fields were present and
well-typed. -/
theorem parseHourlyAt_ok_fields {j : Json} {i : Nat} {h : HourlyData}
    (H : parseHourlyAt j i = Except.ok h) :
    (hourlyField j "temperature_2m" i).asF64.isSome = true ∧
    (hourlyField j "precipitation_probability" i).asUsize.isSome = true ∧
    (hourlyField j "wind_speed_10m" i).asF64.isSome = true ∧
    (hourlyField j "wind_direction_10m" i).asUsize.isSome = true ∧
    (hourlyField j "weather_code" i).asUsize.isSome = true := by
  cases h1 : (hourlyField j "temperature_2m" i).asF64 with
  | none => simp [parseHourlyAt, okOr, h1, Bind.bind, Except.bind] at H
  | some a1 =>
  cases h2 : (hourlyField j "precipitation_probability" i).asUsize with
  | none => simp [parseHourlyAt, okOr, h1, h2, Bind.bind, Except.bind] at H
  | some a2 =>
  cases h3 : (hourlyField j "wind_speed_10m" i).asF64 with
  | none => simp [parseHourlyAt, okOr, h1, h2, h3, Bind.bind, Except.bind] at H
  | some a3 =>
  cases h4 : (hourlyField j "wind_direction_10m" i).asUsize with
  | none => simp [parseHourlyAt, okOr, h1, h2, h3, h4, Bind.bind, Except.bind] at H
  | some a4 =>
  cases h5 : (hourlyField j "weather_code" i).asUsize with
  | none => simp [parseHourlyAt, okOr, h1, h2, h3, h4, h5, Bind.bind, Except.bind] at H
  | some a5 => simp [h1, h2, h3, h4, h5]

/-- A successful geocode decode means all four fields were present and
well-typed. -/
theorem parse_geo_ok_fields {j : Json} {v : ℚ × ℚ × String}
    (H : parse_lat_lon_and_location (Except.ok j) = Except.ok v) :
    (resultsField j "latitude").asF64.isSome = true ∧
    (resultsField j "longitude").asF64.isSome = true ∧
    (resultsField j "name").asStr.isSome = true ∧
    (resultsField j "country").asStr.isSome = true := by
  cases h1 : (resultsField j "latitude").asF64 with
  | none => simp [parse_lat_lon_and_location, okOr, h1, Bind.bind, Except.bind] at H
  | some a1 =>
  cases h2 : (resultsField j "longitude").asF64 with
  | none => simp [parse_lat_lon_and_location, okOr, h1, h2, Bind.bind, Except.bind] at H
  | some a2 =>
  cases h3 : (resultsField j "name").asStr with
  | none => simp [parse_lat_lon_and_location, okOr, h1, h2, h3, Bind.bind, Except.bind] at H
  | some a3 =>
  cases h4 : (resultsField j "country").asStr with
  | none => simp [parse_lat_lon_and_location, okOr, h1, h2, h3, h4, Bind.bind, Except.bind] at H
  | some a4 => simp [h1, h2, h3, h4]

/-- Indexing with a default into a mapped range yields the mapped value. -/
theorem getD_range_map {α : Type} (f : Nat → α) (dflt : α) (n i : Nat)
    (h : i < n) : ((List.range n).map f).getD i dflt = f i := by
  rw [List.getD_eq_getElem?_getD, List.getElem?_map, List.getElem?_range h]
  rfl

/-- Two successive single-char replacements equal one combined char map. -/
theorem replace_both (s : String) :
    replaceChar (replaceChar s ' ' '+') '-' '+' =
      String.mk (s.data.map fun c => if c = ' ' ∨ c = '-' then '+' else c) := by
  show String.mk ((s.data.map fun c => if c = ' ' then '+' else c).map
      fun c => if c = '-' then '+' else c) = _
  rw [List.map_map]
  congr 1
  refine List.map_congr_left fun c _ => ?_
  by_cases h1 : c = ' '
  · subst h1; decide
  · by_cases h2 : c = '-'
    · subst h2; decide
    · simp [Function.comp, h1, h2]

/-- The suffix after the last slash equals the hint itself when the hint
contains no slash. -/
theorem splitSlashLast_spec (hint : String) :
    String.mk ((hint.data.reverse.takeWhile fun c => c ≠ '/').reverse) =
      if '/' ∈ hint.data then
        String.mk ((hint.data.reverse.takeWhile fun c => c ≠ '/').reverse)
      else hint := by
  by_cases h : '/' ∈ hint.data
  · rw [if_pos h]
  · rw [if_neg h]
    have hall : (hint.data.reverse.takeWhile fun c => c ≠ '/') = hint.data.reverse := by
      rw [List.takeWhile_eq_self_iff]
      intro x hx
      rw [List.mem_reverse] at hx
      simp only [ne_eq, decide_eq_true_eq]
      exact fun hxe => h (hxe ▸ hx)
    rw [hall, List.reverse_reverse]

/-- C5: for every location hint, the geocode query name is the substring
after the last slash (the whole hint when none), with every space and
hyphen replaced by a plus; in particular Europe/Berlin yields Berlin and
New York yields New+York. -/
theorem claimC5_geocode_query_name :
    (∀ hint : String, make_geocode_request (some hint) =
      [Request.webRequest
        ("https://geocoding-api.open-meteo.com/v1/search?name="
          ++ specGeocodeQueryName hint ++ "&count=1&language=en&format=json")
        [("id", "geocode")]])
    ∧ specGeocodeQueryName "Europe/Berlin" = "Berlin"
    ∧ specGeocodeQueryName "New York" = "New+York" := by
  refine ⟨fun hint => ?_, by decide, by decide⟩
  have h1 : make_geocode_request (some hint) =
      [Request.webRequest
        ("https://geocoding-api.open-meteo.com/v1/search?name="
          ++ (replaceChar (replaceChar
              (String.mk ((hint.data.reverse.takeWhile fun c => c ≠ '/').reverse))
              ' ' '+') '-' '+')
          ++ "&count=1&language=en&format=json")
        [("id", "geocode")]] := rfl
  rw [h1, replace_both]
  simp only [specGeocodeQueryName]
  rw [← splitSlashLast_spec hint]

/-- C7 counterexample: a command completion with an unknown correlation tag
and a non-empty error stream does change state — it records an error —
contradicting the claim that unknown-tag completions are ignored. -/
theorem claimC7_counterexample :
    (update initialState c7Event).state ≠ initialState ∧
      (update initialState c7Event).state.error = some "Error fetching timezone: B" := by
  constructor
  · decide
  · decide

/-- C7 amended: HTTP completions whose correlation tag is neither weather
nor geocode leave the state unchanged, issue no request and record no
error; command completions, however, are not dispatched by tag (see the
counterexample). -/
theorem claimC7_amended (s : State) (status : Nat) (body : Except String Json)
    (ctx : List (String × String))
    (hw : ctx.lookup "id" ≠ some "weather")
    (hg : ctx.lookup "id" ≠ some "geocode") :
    update s (Event.webRequestResult status body ctx) = ⟨s, [], false⟩ := by
  simp [update, hw, hg]

/-- C7 witness at a concrete unknown-tag HTTP completion. -/
theorem claimC7_witness :
    update initialState (Event.webRequestResult 503 (Except.ok Json.null)
      [("id", "zzz")]) = ⟨initialState, [], false⟩ :=
  claimC7_amended initialState 503 (Except.ok Json.null) [("id", "zzz")]
    (by decide) (by decide)

/-- C10: a timezone-command completion with exit status 0 and non-UTF-8
stdout sets the stored location hint to none and issues no geocode
request. -/
theorem claimC10_invalid_stdout (s : State) (stdout stderr : List Nat)
    (ctx : List (String × String))
    (hid : ctx.lookup "id" = some TIMEZONE_COMMAND_ID)
    (hbad : utf8Decode stdout = none) :
    (update s (Event.runCommandResult (some 0) stdout stderr ctx)).state.requested_timezone
        = none
      ∧ (update s (Event.runCommandResult (some 0) stdout stderr ctx)).requests = [] := by
  simp only [update]
  rw [if_pos ⟨hid, trivial⟩, hbad]
  simp [make_geocode_request, Option.bind]

/-- C10 witness: stdout byte 255 is not valid UTF-8. -/
theorem claimC10_witness :
    (update initialState (Event.runCommandResult (some 0) [255] []
        [("id", "TIMEZONE_COMMAND_ID")])).state.requested_timezone = none
      ∧ (update initialState (Event.runCommandResult (some 0) [255] []
        [("id", "TIMEZONE_COMMAND_ID")])).requests = [] :=
  claimC10_invalid_stdout initialState [255] [] [("id", "TIMEZONE_COMMAND_ID")]
    (by decide) (by decide)

/-- C2 counterexample: in an error state with a known hint, confirm clears
the error but issues no request at all, contradicting the claim that it
restarts resolution (geocode, since a hint is known). -/
theorem claimC2_counterexample :
    (update c2State (Event.key (Key.char '\n'))).state.error = none ∧
      (update c2State (Event.key (Key.char '\n'))).requests = [] := by
  constructor
  · decide
  · decide

/-- C2 amended: with an error present, confirm clears the error and exits
fetching mode without issuing any request; only a subsequent confirm
restarts resolution (timezone command or geocode, depending on the hint). -/
theorem claimC2_amended (s : State) (h : s.error.isSome)
    (hd : s.location_being_typed = none) :
    update s (Event.key (Key.char '\n')) =
        ⟨{ s with error := none, fetching_data := false }, [], true⟩
      ∧ (update { s with error := none, fetching_data := false }
          (Event.key (Key.char '\n'))).requests
        = discover_local_timezone_or_make_geocode_request s := by
  constructor
  · simp [update, h]
  · simp [update, hd, discover_local_timezone_or_make_geocode_request]

/-- C2 witness at a concrete error state with a known hint. -/
theorem claimC2_witness :
    update c2State (Event.key (Key.char '\n')) =
        ⟨{ c2State with error := none, fetching_data := false }, [], true⟩
      ∧ (update { c2State with error := none, fetching_data := false }
          (Event.key (Key.char '\n'))).requests
        = discover_local_timezone_or_make_geocode_request c2State :=
  claimC2_amended c2State (by decide) (by decide)

/-- C1 counterexample: a weather completion with status 503 while fetching
sets the error but leaves `fetching_data` true, contradicting the claim
that failing events set `isFetching` to false. -/
theorem claimC1_counterexample :
    (update c1State c1Event).state.error.isSome = true ∧
      (update c1State c1Event).state.fetching_data = true := by
  constructor
  · decide
  · decide

/-- C1 amended: every event that fails a fetch attempt sets `lastError` to
some message but leaves `isFetching` unchanged (the code never clears the
fetching flag on an error path). -/
theorem claimC1_amended (s : State) (e : Event) (hF : fetchFailEvent e) :
    (update s e).state.error.isSome = true ∧
      (update s e).state.fetching_data = s.fetching_data := by
  cases e with
  | permissionRequestResult => exact absurd hF (by simp [fetchFailEvent])
  | otherEvent => exact absurd hF (by simp [fetchFailEvent])
  | key k => exact absurd hF (by simp [fetchFailEvent])
  | runCommandResult exitCode stdout stderr ctx =>
    have hne : stderr ≠ [] := hF
    simp only [update]
    rw [if_pos hne]
    constructor
    · split <;> simp
    · split <;> simp
  | webRequestResult status body ctx =>
    rcases hF with ⟨hid, hrest⟩ | ⟨hid, hrest⟩
    · simp only [update]
      rw [if_pos hid]
      by_cases hst : status = 200
      · rcases hrest with h200 | ⟨e, he⟩
        · exact absurd hst h200
        · rw [if_neg (by simp [hst]), he]
          simp
      · rw [if_pos hst]
        simp
    · simp only [update]
      by_cases hw : ctx.lookup "id" = some "weather"
      · rw [hw] at hid; simp at hid
      · rw [if_neg hw, if_pos hid]
        by_cases hst : status = 200
        · rcases hrest with h200 | ⟨e, he⟩
          · exact absurd hst h200
          · rw [if_neg (by simp [hst]), he]
            simp
        · rw [if_pos hst]
          simp

/-- C1 witness at the concrete 503 weather completion. -/
theorem claimC1_witness :
    (update c1State c1Event).state.error.isSome = true ∧
      (update c1State c1Event).state.fetching_data = c1State.fetching_data :=
  claimC1_amended c1State c1Event (Or.inl ⟨rfl, Or.inl (by decide)⟩)

/-- C8: every event that fails a fetch attempt leaves a non-empty stored
forecast exactly unchanged. -/
theorem claimC8_error_preserves_forecast (s : State) (e : Event)
    (_hne : s.weather_data ≠ []) (hF : fetchFailEvent e) :
    (update s e).state.weather_data = s.weather_data := by
  cases e with
  | permissionRequestResult => exact absurd hF (by simp [fetchFailEvent])
  | otherEvent => exact absurd hF (by simp [fetchFailEvent])
  | key k => exact absurd hF (by simp [fetchFailEvent])
  | runCommandResult exitCode stdout stderr ctx =>
    simp only [update]
    split <;> split <;> simp
  | webRequestResult status body ctx =>
    rcases hF with ⟨hid, hrest⟩ | ⟨hid, hrest⟩
    · simp only [update]
      rw [if_pos hid]
      by_cases hst : status = 200
      · rcases hrest with h200 | ⟨e, he⟩
        · exact absurd hst h200
        · rw [if_neg (by simp [hst]), he]
      · rw [if_pos hst]
    · simp only [update]
      by_cases hw : ctx.lookup "id" = some "weather"
      · rw [hw] at hid; simp at hid
      · rw [if_neg hw, if_pos hid]
        by_cases hst : status = 200
        · rcases hrest with h200 | ⟨e, he⟩
          · exact absurd hst h200
          · rw [if_neg (by simp [hst]), he]
        · rw [if_pos hst]

/-- C8 witness: a 503 geocode completion on a state with a stored
forecast. -/
theorem claimC8_witness :
    (update s8 e8).state.weather_data = s8.weather_data :=
  claimC8_error_preserves_forecast s8 e8 (by decide)
    (Or.inr ⟨rfl, Or.inl (by decide)⟩)

/-- C6 counterexample: after starting a fetch, entering typing mode, then
receiving a failing command completion, the reachable state has both
`draftInput` and `lastError` set, contradicting the claimed invariant. -/
theorem claimC6_counterexample :
    (runEvents initialState c6Events).location_being_typed.isSome = true ∧
      (runEvents initialState c6Events).error.isSome = true := by
  constructor
  · decide
  · decide

/-- C6 amended: key events preserve the mutual exclusion of `draftInput`
and `lastError`, but completion events can set `lastError` while
`draftInput` is set (see the counterexample). -/
theorem claimC6_amended (s : State) (k : Key)
    (h : ¬(s.location_being_typed.isSome = true ∧ s.error.isSome = true)) :
    ¬((update s (Event.key k)).state.location_being_typed.isSome = true ∧
        (update s (Event.key k)).state.error.isSome = true) := by
  cases k with
  | char ch =>
    by_cases hch : ch = '\n'
    · subst hch
      by_cases he : s.error.isSome = true
      · simp [update, he]
      · have hnone : s.error = none := by
          cases hoe : s.error
          · rfl
          · rw [hoe] at he; simp at he
        cases hl : s.location_being_typed with
        | some l => simp [update, hnone, hl]
        | none => simp [update, hnone, hl]
    · simp only [update, if_neg hch]
      intro ⟨h1, h2⟩
      rw [Option.isSome_map'] at h1
      exact h (by simp_all)
  | ctrl ch =>
    by_cases hw : ch = 'w'
    · subst hw; simp [update]
    · simpa [update, hw] using h
  | backspace =>
    simp only [update]
    intro ⟨h1, h2⟩
    rw [Option.isSome_map'] at h1
    exact h (by simp_all)
  | otherKey => simpa [update] using h

/-- C6 witness: a character key on the initial state keeps the exclusion. -/
theorem claimC6_witness :
    ¬((update initialState (Event.key (Key.char 'a'))).state.location_being_typed.isSome
          = true ∧
        (update initialState (Event.key (Key.char 'a'))).state.error.isSome = true) :=
  claimC6_amended initialState (Key.char 'a') (by decide)

/-- C9: a geocode payload whose first results entry has numeric latitude
and longitude and string name and country parses to exactly those
coordinates with the label formatted as name-comma-country; any missing or
mistyped field yields an error. -/
theorem claimC9_geocode_parse_exact (j : Json) (lat lon : ℚ) (nam cty : String)
    (hlat : resultsField j "latitude" = Json.num lat)
    (hlon : resultsField j "longitude" = Json.num lon)
    (hnam : resultsField j "name" = Json.str nam)
    (hcty : resultsField j "country" = Json.str cty) :
    parse_lat_lon_and_location (Except.ok j)
        = Except.ok (lat, lon, nam ++ ", " ++ cty)
      ∧ ∀ j2, geoFieldFails j2 →
          ∃ e, parse_lat_lon_and_location (Except.ok j2) = Except.error e := by
  constructor
  · simp [parse_lat_lon_and_location, hlat, hlon, hnam, hcty, okOr,
      Json.asF64, Json.asStr, Bind.bind, Except.bind]
  · intro j2 hf
    cases hr : parse_lat_lon_and_location (Except.ok j2) with
    | error e => exact ⟨e, rfl⟩
    | ok v =>
      exfalso
      obtain ⟨f1, f2, f3, f4⟩ := parse_geo_ok_fields hr
      rcases hf with hx | hx | hx | hx
      · rw [hx] at f1; simp at f1
      · rw [hx] at f2; simp at f2
      · rw [hx] at f3; simp at f3
      · rw [hx] at f4; simp at f4

/-- C9 witness: the Berlin fixture parses; the empty object fails. -/
theorem claimC9_witness :
    parse_lat_lon_and_location (Except.ok jG) = Except.ok (52, 13, "Berlin, Germany")
      ∧ ∃ e, parse_lat_lon_and_location (Except.ok (Json.obj [])) = Except.error e :=
  ⟨(claimC9_geocode_parse_exact jG 52 13 "Berlin" "Germany" rfl rfl rfl rfl).1,
   (claimC9_geocode_parse_exact jG 52 13 "Berlin" "Germany" rfl rfl rfl rfl).2
     (Json.obj []) (Or.inl rfl)⟩

/-- C3: when the five hourly arrays are well-typed at every index 0..166,
the weather parser returns exactly the 167-entry map keyed 0..166 whose
entry at each index carries the source values at that index. -/
theorem claimC3_weather_parse_exact (j : Json) (t w : Nat → ℚ) (p d c : Nat → Nat)
    (ht : ∀ i, i < 167 → hourlyField j "temperature_2m" i = Json.num (t i))
    (hp : ∀ i, i < 167 → hourlyField j "precipitation_probability" i = Json.num (p i))
    (hw : ∀ i, i < 167 → hourlyField j "wind_speed_10m" i = Json.num (w i))
    (hd : ∀ i, i < 167 → hourlyField j "wind_direction_10m" i = Json.num (d i))
    (hc : ∀ i, i < 167 → hourlyField j "weather_code" i = Json.num (c i)) :
    parse_weather_data (Except.ok j)
        = Except.ok ((List.range 167).map fun i =>
            ((i, ⟨t i, p i, w i, d i, c i⟩) : Nat × HourlyData))
      ∧ ((List.range 167).map fun i =>
            ((i, ⟨t i, p i, w i, d i, c i⟩) : Nat × HourlyData)).length = 167
      ∧ ∀ i, i < 167 →
          ((List.range 167).map fun i =>
            ((i, ⟨t i, p i, w i, d i, c i⟩) : Nat × HourlyData))[i]?
            = some (i, ⟨t i, p i, w i, d i, c i⟩) := by
  have hrec : ∀ i, i < 167 →
      parseHourlyAt j i = Except.ok ⟨t i, p i, w i, d i, c i⟩ := by
    intro i hi
    simp [parseHourlyAt, ht i hi, hp i hi, hw i hi, hd i hi, hc i hi, okOr,
      Json.asF64, Json.asUsize, Bind.bind, Except.bind,
      Rat.den_natCast, Rat.num_natCast, Int.toNat_natCast]
  have hmain := parseWeatherGo_ok_of j (fun i => ⟨t i, p i, w i, d i, c i⟩) 167 0 []
    (fun u hu => by simpa using hrec u hu) (by simp)
  refine ⟨?_, by simp, ?_⟩
  · show parseWeatherGo j 0 167 [] = _
    rw [hmain]
    simp
  · intro i hi
    rw [List.getElem?_map, List.getElem?_range hi]
    rfl

/-- C3 witness: the all-arrays fixture parses to the full 167-entry map. -/
theorem claimC3_witness :
    parse_weather_data (Except.ok jW)
      = Except.ok ((List.range 167).map fun i =>
          ((i, ⟨(i : ℚ), i, (i : ℚ), i, i⟩) : Nat × HourlyData)) :=
  (claimC3_weather_parse_exact jW (fun i => (i : ℚ)) (fun i => (i : ℚ))
    (fun i => i) (fun i => i) (fun i => i)
    (fun i hi => by
      show natArr167.getIdx i = Json.num (i : ℚ)
      simp only [natArr167, Json.getIdx]
      exact getD_range_map _ _ _ _ hi)
    (fun i hi => by
      show natArr167.getIdx i = Json.num (i : ℚ)
      simp only [natArr167, Json.getIdx]
      exact getD_range_map _ _ _ _ hi)
    (fun i hi => by
      show natArr167.getIdx i = Json.num (i : ℚ)
      simp only [natArr167, Json.getIdx]
      exact getD_range_map _ _ _ _ hi)
    (fun i hi => by
      show natArr167.getIdx i = Json.num (i : ℚ)
      simp only [natArr167, Json.getIdx]
      exact getD_range_map _ _ _ _ hi)
    (fun i hi => by
      show natArr167.getIdx i = Json.num (i : ℚ)
      simp only [natArr167, Json.getIdx]
      exact getD_range_map _ _ _ _ hi)).1

/-- C4: a payload with a missing or mistyped hourly field at any index
0..166 makes the weather parser fail, and on that error the orchestrator
leaves the stored forecast map unchanged. -/
theorem claimC4_missing_field (j : Json)
    (hf : ∃ i, i < 167 ∧ weatherFieldFails j i) :
    (∃ e, parse_weather_data (Except.ok j) = Except.error e)
      ∧ ∀ (s : State) (ctx : List (String × String)),
          ctx.lookup "id" = some "weather" →
          (update s (Event.webRequestResult 200 (Except.ok j) ctx)).state.weather_data
            = s.weather_data := by
  obtain ⟨i, hi, hfail⟩ := hf
  have herr : ∃ e, parse_weather_data (Except.ok j) = Except.error e := by
    cases hr : parse_weather_data (Except.ok j) with
    | error e => exact ⟨e, rfl⟩
    | ok m =>
      exfalso
      have hgo : parseWeatherGo j 0 167 [] = Except.ok m := hr
      obtain ⟨h, hok⟩ := parseWeatherGo_ok_fields j 167 0 [] m hgo i hi
      rw [Nat.zero_add] at hok
      obtain ⟨f1, f2, f3, f4, f5⟩ := parseHourlyAt_ok_fields hok
      rcases hfail with hx | hx | hx | hx | hx
      · rw [hx] at f1; simp at f1
      · rw [hx] at f2; simp at f2
      · rw [hx] at f3; simp at f3
      · rw [hx] at f4; simp at f4
      · rw [hx] at f5; simp at f5
  refine ⟨herr, ?_⟩
  intro s ctx hctx
  obtain ⟨e, he⟩ := herr
  simp [update, hctx, he]

/-- C4 witness: the empty object fails the parser and leaves the stored
forecast of a concrete state untouched. -/
theorem claimC4_witness :
    (∃ e, parse_weather_data (Except.ok (Json.obj [])) = Except.error e)
      ∧ (update s8 (Event.webRequestResult 200 (Except.ok (Json.obj []))
          [("id", "weather")])).state.weather_data = s8.weather_data :=
  ⟨(claimC4_missing_field (Json.obj []) ⟨0, by omega, Or.inl rfl⟩).1,
   (claimC4_missing_field (Json.obj []) ⟨0, by omega, Or.inl rfl⟩).2
     s8 [("id", "weather")] rfl⟩
